import Mathlib

set_option maxRecDepth 4096

deriving instance DecidableEq for Except

/-!
Verification development for the rss-alert-monitor pipeline.

The Python sources are embedded shallowly: Python `dict` entries become
association lists over an inductive value type `FVal` (string values
versus arbitrary non-string objects); functions that can raise become
`Except`-valued functions, with the exception class name recorded in
the error string; Python `float` magnitudes parsed from decimal
literals are modelled as exact rationals (the magnitude strings the
feeds produce have few digits, where the two agree); `re` searches used
by the code are implemented character by character with the same
leftmost-match and ordered-alternation semantics; `datetime.strptime`
is modelled per directive, following the component regexes CPython
builds for each directive, with the C-locale name tables (`%Z` is
modelled by the fixed name set utc, gmt).
-/

/-! ### Basic character and string helpers -/

/-- Python `\s` for the ASCII range (space, tab, LF, CR, VT, FF). -/
def isPySpace (c : Char) : Bool :=
  c == ' ' || c == '\t' || c == '\n' || c == '\r' || c == '\x0b' || c == '\x0c'

/-- Python `str.lower()` (ASCII model). -/
def lowerS (s : String) : String := String.mk (s.data.map Char.toLower)

/-- Does the pattern occur as a prefix of the character list? -/
def startsList : List Char → List Char → Bool
  | [], _ => true
  | _ :: _, [] => false
  | p :: ps, c :: cs => p == c && startsList ps cs

/-- Python `pat in s` substring membership, on character lists. -/
def containsList (pat : List Char) : List Char → Bool
  | [] => startsList pat []
  | c :: cs => startsList pat (c :: cs) || containsList pat cs

/-- Python `pat in s` substring membership. -/
def containsS (pat s : String) : Bool := containsList pat.data s.data

/-- Python `s.startswith(pat)`. -/
def startsS (pat s : String) : Bool := startsList pat.data s.data

/-- Python `str.capitalize()` (ASCII model). -/
def capitalizeS (s : String) : String :=
  match s.data with
  | [] => ""
  | c :: cs => String.mk (c.toUpper :: cs.map Char.toLower)

/-- Value of a list of ASCII digits. -/
def digitsVal (cs : List Char) : Nat :=
  cs.foldl (fun acc c => acc * 10 + (c.toNat - 48)) 0

/-- Exact value of the decimal literal `intPart.fracPart`. -/
def decimalVal (intPart fracPart : List Char) : ℚ :=
  mkRat (digitsVal (intPart ++ fracPart)) (10 ^ fracPart.length)

/-- The literal `5.8` of the USGS magnitude threshold. -/
def usgsThreshold : ℚ := mkRat 29 5

/-- The literal `6.0` of the GDACS magnitude threshold. -/
def gdacsThreshold : ℚ := mkRat 6 1

/-! ### The USGS magnitude regex

The pattern: start of string or a whitespace character, then an `m` or
`magnitude` token, optional whitespace, then a decimal number; applied
by `should_filter_entry` to the already lowercased title and summary
with IGNORECASE.
-/

/-- Greedy `\d+\.?\d*` at the current position; `none` when no leading
digit. -/
def numAt (cs : List Char) : Option ℚ :=
  let ds := cs.takeWhile Char.isDigit
  if ds.isEmpty then none
  else
    match cs.drop ds.length with
    | '.' :: rest2 => some (decimalVal ds (rest2.takeWhile Char.isDigit))
    | _ => some (decimalVal ds [])

/-- Pattern `(?:m|magnitude)\s*(\d+\.?\d*)` at the current position, with the
regex engine's ordered alternation (`m` tried before `magnitude`). -/
def usgsTokenAt (cs : List Char) : Option ℚ :=
  match cs with
  | 'm' :: rest =>
    match numAt (rest.dropWhile isPySpace) with
    | some q => some q
    | none =>
      if startsList "agnitude".data rest then
        numAt ((rest.drop 8).dropWhile isPySpace)
      else none
  | _ => none

/-- Scan for `\s` followed by the token pattern, leftmost first. -/
def usgsScan : List Char → Option ℚ
  | [] => none
  | c :: cs =>
    if isPySpace c then
      match usgsTokenAt cs with
      | some q => some q
      | none => usgsScan cs
    else usgsScan cs

/-- The full search: the `^` alternative at position 0, then each
whitespace-preceded position from left to right. -/
def usgsSearch (s : String) : Option ℚ :=
  match usgsTokenAt s.data with
  | some q => some q
  | none => usgsScan s.data

/-! ### Severity-string parsing

The `magnitude.replace` dots-removed `isdigit` guard followed by a
`float` conversion (which fails when more than one dot is present).
-/

/-- Returns `some` exactly when the guard passes and `float` succeeds; the value
is the exact rational reading of the literal. -/
def sevParse (s : String) : Option ℚ :=
  let cs := s.data
  let noDots := cs.filter (fun c => !(c == '.'))
  if noDots.isEmpty || !(noDots.all Char.isDigit) then none
  else if 2 ≤ (cs.filter (fun c => c == '.')).length then none
  else
    let ip := cs.takeWhile (fun c => !(c == '.'))
    match cs.drop ip.length with
    | [] => some (decimalVal ip [])
    | _ :: frac => some (decimalVal ip frac)

/-! ### The SPC mesoscale-discussion number regex

The pattern `md`, one or more whitespace characters, then a digit
group, searched by `group_disasters` over the lowercased title.
-/

/-- Pattern `md\s+(\d+)` anchored at the current position. -/
def mdAt (cs : List Char) : Option String :=
  if startsList "md".data cs then
    let rest := cs.drop 2
    let sp := rest.takeWhile isPySpace
    if sp.isEmpty then none
    else
      let ds := (rest.drop sp.length).takeWhile Char.isDigit
      if ds.isEmpty then none else some (String.mk ds)
  else none

/-- Leftmost search for `md\s+(\d+)`. -/
def mdSearch : List Char → Option String
  | [] => none
  | c :: cs =>
    match mdAt (c :: cs) with
    | some n => some n
    | none => mdSearch cs

/-! ### The GDACS raw-XML alert-level regex

The pattern `alertlevel`, optional whitespace, a greater-than sign,
optional whitespace, `green`, searched with IGNORECASE over the raw
`str(entry)` text.
-/

/-- The pattern anchored at the current position (input pre-lowered). -/
def alertGreenAt (cs : List Char) : Bool :=
  if startsList "alertlevel".data cs then
    match (cs.drop 10).dropWhile isPySpace with
    | '>' :: rest2 => startsList "green".data (rest2.dropWhile isPySpace)
    | _ => false
  else false

/-- Leftmost search for `alertlevel\s*>\s*green`. -/
def alertGreenScan : List Char → Bool
  | [] => false
  | c :: cs => alertGreenAt (c :: cs) || alertGreenScan cs

/-! ### Python values, dict entries and the entry argument -/

/-- A Python value stored in a feed-entry or details dict: either a
`str`, or any other object carrying its `str()` rendering and its
truthiness. -/
inductive FVal where
  | str (s : String)
  | obj (rep : String) (truthy : Bool)
deriving DecidableEq

/-- Python truthiness. -/
def truthyF : FVal → Bool
  | .str s => !(s == "")
  | .obj _ t => t

/-- Python `str(v)`. -/
def pyStrF : FVal → String
  | .str s => s
  | .obj r _ => r

/-- Python `repr(v)` (strings quoted; escaping of embedded quotes is not
modelled). -/
def reprF : FVal → String
  | .str s => "\x27" ++ s ++ "\x27"
  | .obj r _ => r

/-- A Python dict with string keys, as an association list. -/
abbrev EDict := List (String × FVal)

/-- First-match lookup (Python dict keys are unique, so this is exact). -/
def lookupE (k : String) : EDict → Option FVal
  | [] => none
  | (k2, v) :: rest => if k2 == k then some v else lookupE k rest

/-- Generic association-list lookup with string keys. -/
def lookupA {α : Type} (k : String) : List (String × α) → Option α
  | [] => none
  | (k2, v) :: rest => if k2 == k then some v else lookupA k rest

/-- Python `str(dict)`: `{'k': v, ...}` with `repr` of each item. -/
def reprDict (d : EDict) : String :=
  "\x7b" ++ String.intercalate ", " (d.map (fun p => reprF (.str p.1) ++ ": " ++ reprF p.2)) ++ "\x7d"

/-- The `entry` argument of `should_filter_entry`: `None`, a dict, or
any other object. -/
inductive PyEntry where
  | pynone
  | dict (d : EDict)
  | nondict (rep : String)
deriving DecidableEq

/-- Python `str(entry)`. -/
def pyStrEntry : PyEntry → String
  | .pynone => "None"
  | .dict d => reprDict d
  | .nondict r => r

/-- Python `entry.get(k, "").lower() if isinstance(entry, dict) else ""`:
raises `AttributeError` when the stored value is not a `str`. -/
def fieldLower (e : PyEntry) (k : String) : Except String String :=
  match e with
  | .dict d =>
    match lookupE k d with
    | none => .ok ""
    | some (.str s) => .ok (lowerS s)
    | some (.obj _ _) => .error "AttributeError"
  | _ => .ok ""

/-! ### should_filter_entry (process_data.py lines 77-205) -/

/-- GDACS check 3: scan `entry.items()` for a key containing
`alertlevel` whose value is the string `green`. -/
def itemsAlertGreen : PyEntry → Bool
  | .dict d =>
    d.any (fun p =>
      containsS "alertlevel" (lowerS p.1) &&
      (match p.2 with
       | .str s => lowerS s == "green"
       | _ => false))
  | _ => false

/-- GDACS check 4: raw `str(entry)` scan for the alert-level pattern. -/
def rawGreenXml (raw : String) : Bool :=
  let low := lowerS raw
  containsS "alertlevel" low && containsS "green" low && alertGreenScan low.data

/-- GDACS check 7: the icon-URL heuristic; `'icon' in entry`, then
`entry.get('icon','').lower()` (raises on a non-string icon value). -/
def iconGreenCheck : PyEntry → Except String Bool
  | .dict d =>
    match lookupE "icon" d with
    | none => .ok false
    | some (.str s) => .ok (containsS "green" (lowerS s) && containsS "eq" (lowerS s))
    | some (.obj _ _) => .error "AttributeError"
  | _ => .ok false

/-- Python `if entry_details and isinstance(entry_details, dict)`: a missing,
falsy, or non-dict details argument deactivates the details checks (an
empty dict is falsy). -/
def activeDetails : Option EDict → Option EDict
  | some d => if d.isEmpty then none else some d
  | none => none

/-- Python `details.get(k, "").lower()`: raises on a non-string stored value. -/
def detGetLower (d : EDict) (k : String) : Except String String :=
  match lookupE k d with
  | none => .ok ""
  | some (.str s) => .ok (lowerS s)
  | some (.obj _ _) => .error "AttributeError"

/-- GDACS check 5: LLM-extracted `alert_level == "green"`. -/
def greenAlertCheck (dd : Option EDict) : Except String Bool :=
  match activeDetails dd with
  | none => .ok false
  | some d => (detGetLower d "alert_level").map (fun al => al == "green")

/-- GDACS check 8 / USGS LLM backup: details-extracted earthquake
magnitude below the given threshold. -/
def magCheckDetails (dd : Option EDict) (threshold : ℚ) : Except String Bool :=
  match activeDetails dd with
  | none => .ok false
  | some d =>
    match detGetLower d "disaster_type" with
    | .error er => .error er
    | .ok dt =>
      if dt == "earthquake" then
        match (lookupE "severity" d).getD (.str "") with
        | .str s =>
          match sevParse s with
          | some q => .ok (decide (q < threshold))
          | none => .ok false
        | .obj _ _ => .ok false
      else .ok false

/-- The GDACS branch of `should_filter_entry`, checks 1-8 in source
order. -/
def gdacsChecks (e : PyEntry) (dd : Option EDict) (title summary : String) : Except String Bool :=
  if startsS "green " title then .ok true
  else if containsS "green alert" title || containsS "green alert" summary then .ok true
  else if itemsAlertGreen e then .ok true
  else if rawGreenXml (pyStrEntry e) then .ok true
  else
    match greenAlertCheck dd with
    | .error er => .error er
    | .ok true => .ok true
    | .ok false =>
      if containsS "green earthquake" title then .ok true
      else
        match iconGreenCheck e with
        | .error er => .error er
        | .ok true => .ok true
        | .ok false => magCheckDetails dd gdacsThreshold

/-- The USGS branch of `should_filter_entry`: title regex, then summary
regex only when the title had no match, then the LLM backup. -/
def usgsChecks (dd : Option EDict) (title summary : String) : Except String Bool :=
  match usgsSearch title with
  | some m => if m < usgsThreshold then .ok true else magCheckDetails dd usgsThreshold
  | none =>
    match usgsSearch summary with
    | some m => if m < usgsThreshold then .ok true else magCheckDetails dd usgsThreshold
    | none => magCheckDetails dd usgsThreshold

/-- The four lowercased fields computed at lines 87-90 (in source
order, so the first non-string field raises). -/
def entryFields (e : PyEntry) : Except String (String × String × String × String) :=
  match fieldLower e "source_type" with
  | .error er => .error er
  | .ok st =>
    match fieldLower e "title" with
    | .error er => .error er
    | .ok title =>
      match fieldLower e "summary" with
      | .error er => .error er
      | .ok summary =>
        match fieldLower e "link" with
        | .error er => .error er
        | .ok link => .ok (st, title, summary, link)

/-- The source-type gated rule chain of `should_filter_entry` (the
noaa_spc block falls through to the gdacs/usgs chain; the final
`return False`). -/
def filterChain (e : PyEntry) (dd : Option EDict) (st title summary link : String) : Except String Bool :=
  if st == "noaa_spc" && (containsS "/md/" link || startsS "spc md" title) then .ok true
  else if st == "noaa_spc" && (containsS "/outlook/" link || containsS "outlook" (lowerS title)) then .ok true
  else if st == "gdacs" then gdacsChecks e dd title summary
  else if st == "usgs" then usgsChecks dd title summary
  else .ok false

/-- Function `should_filter_entry(entry, entry_details=None)`.  `.ok true` means
"filter out", `.ok false` means "keep", `.error` models a raised
exception. -/
def shouldFilterEntry (e : PyEntry) (dd : Option EDict) : Except String Bool :=
  match e with
  | .pynone => .ok true
  | _ =>
    match entryFields e with
    | .error er => .error er
    | .ok (st, title, summary, link) => filterChain e dd st title summary link

/-! ### normalize_date (process_data.py lines 39-75)

`datetime.strptime` is tried for ten fixed formats in order; CPython
compiles each directive to a component regex (matched with IGNORECASE,
whitespace in the format matching one or more whitespace characters,
full-match required), then the `datetime` constructor validates the
calendar date.  On failure a last-resort search for an embedded
date-like group (four digits, a dash-or-slash separator, one or two
digits, a separator, one or two digits) extracts a substring, slashes
are replaced by dashes, and the function recurses on the extracted
string.  The recursion is modelled with a fuel parameter equal to the
CPython recursion limit; exhausted fuel models the `RecursionError`
the unbounded self-recursion produces.
-/

/-- One strptime directive, or a literal character, or a whitespace run. -/
inductive FmtTok where
  | ffY | ffm | ffd | ffH | ffMi | ffS | ffa | ffb | ffB | ffZname | ffz
  | lit (c : Char)
  | ws
deriving DecidableEq

/-- The fields strptime collects (defaults 1900-01-01 00:00:00). -/
structure DParts where
  y : Nat
  mo : Nat
  dy : Nat
  hh : Nat
  mi : Nat
  ss : Nat
deriving DecidableEq

def initParts : DParts := ⟨1900, 1, 1, 0, 0, 0⟩

/-- Directive `%Y`, compiled to `\d\d\d\d`. -/
def pY : List Char → Option (Nat × List Char)
  | a :: b :: c :: d :: rest =>
    if a.isDigit && b.isDigit && c.isDigit && d.isDigit then
      some (digitsVal [a, b, c, d], rest)
    else none
  | _ => none

/-- Directive `%m`, compiled to `1[0-2]|0[1-9]|[1-9]` (ordered alternation). -/
def pMon : List Char → Option (Nat × List Char)
  | a :: b :: rest =>
    if a == '1' && ('0' ≤ b && b ≤ '2') then some (10 + (b.toNat - 48), rest)
    else if a == '0' && ('1' ≤ b && b ≤ '9') then some (b.toNat - 48, rest)
    else if '1' ≤ a && a ≤ '9' then some (a.toNat - 48, b :: rest)
    else none
  | [a] => if '1' ≤ a && a ≤ '9' then some (a.toNat - 48, []) else none
  | [] => none

/-- Directive `%d`, compiled to `3[01]|[12]\d|0[1-9]|[1-9]`. -/
def pDay : List Char → Option (Nat × List Char)
  | a :: b :: rest =>
    if a == '3' && (b == '0' || b == '1') then some (30 + (b.toNat - 48), rest)
    else if (a == '1' || a == '2') && b.isDigit then
      some ((a.toNat - 48) * 10 + (b.toNat - 48), rest)
    else if a == '0' && ('1' ≤ b && b ≤ '9') then some (b.toNat - 48, rest)
    else if '1' ≤ a && a ≤ '9' then some (a.toNat - 48, b :: rest)
    else none
  | [a] => if '1' ≤ a && a ≤ '9' then some (a.toNat - 48, []) else none
  | [] => none

/-- Directive `%H`, compiled to `2[0-3]|[0-1]\d|\d`. -/
def pHour : List Char → Option (Nat × List Char)
  | a :: b :: rest =>
    if a == '2' && ('0' ≤ b && b ≤ '3') then some (20 + (b.toNat - 48), rest)
    else if (a == '0' || a == '1') && b.isDigit then
      some ((a.toNat - 48) * 10 + (b.toNat - 48), rest)
    else if a.isDigit then some (a.toNat - 48, b :: rest)
    else none
  | [a] => if a.isDigit then some (a.toNat - 48, []) else none
  | [] => none

/-- Directive `%M`, compiled to `[0-5]\d|\d`. -/
def pMin : List Char → Option (Nat × List Char)
  | a :: b :: rest =>
    if ('0' ≤ a && a ≤ '5') && b.isDigit then
      some ((a.toNat - 48) * 10 + (b.toNat - 48), rest)
    else if a.isDigit then some (a.toNat - 48, b :: rest)
    else none
  | [a] => if a.isDigit then some (a.toNat - 48, []) else none
  | [] => none

/-- Directive `%S`, compiled to `6[0-1]|[0-5]\d|\d`. -/
def pSec : List Char → Option (Nat × List Char)
  | a :: b :: rest =>
    if a == '6' && (b == '0' || b == '1') then some (60 + (b.toNat - 48), rest)
    else if ('0' ≤ a && a ≤ '5') && b.isDigit then
      some ((a.toNat - 48) * 10 + (b.toNat - 48), rest)
    else if a.isDigit then some (a.toNat - 48, b :: rest)
    else none
  | [a] => if a.isDigit then some (a.toNat - 48, []) else none
  | [] => none

/-- C-locale abbreviated weekday names (`%a`). -/
def weekdayNames : List String := ["mon", "tue", "wed", "thu", "fri", "sat", "sun"]

/-- C-locale abbreviated month names (`%b`). -/
def monthAbbr : List String :=
  ["jan", "feb", "mar", "apr", "may", "jun", "jul", "aug", "sep", "oct", "nov", "dec"]

/-- C-locale full month names (`%B`). -/
def monthFull : List String :=
  ["january", "february", "march", "april", "may", "june", "july", "august",
   "september", "october", "november", "december"]

/-- Timezone names accepted by `%Z` (environment-independent model). -/
def tzNames : List String := ["utc", "gmt"]

/-- Case-insensitive name-table match; returns the 0-based index plus
`base` and the remaining input.  No table entry is a prefix of another,
so try-in-order is exact. -/
def pName (names : List String) (base : Nat) (cs : List Char) : Option (Nat × List Char) :=
  match names with
  | [] => none
  | nm :: rest =>
    if startsList nm.data (cs.map Char.toLower) then some (base, cs.drop nm.data.length)
    else pName rest (base + 1) cs

/-- Format `%z`: `[+-]\d\d:?\d\d(:?\d\d(\.\d{1,6})?)?|Z` (the `Z` alternative is
case-sensitive); returns the absolute offset in whole seconds. -/
def pTzSecs (rest5 : List Char) (base : Nat) : Option (Nat × List Char) :=
  let r := match rest5 with
           | ':' :: r2 => r2
           | r2 => r2
  match r with
  | s1 :: s2 :: rest6 =>
    if s1.isDigit && s2.isDigit then
      let secs := (s1.toNat - 48) * 10 + (s2.toNat - 48)
      match rest6 with
      | '.' :: rest7 =>
        let fs := rest7.takeWhile Char.isDigit
        if fs.isEmpty || 7 ≤ fs.length then none
        else some (base + secs, rest7.drop fs.length)
      | _ => some (base + secs, rest6)
    else none
  | _ => none

def pTz : List Char → Option (Nat × List Char)
  | 'Z' :: rest => some (0, rest)
  | s :: h1 :: h2 :: rest =>
    if (s == '+' || s == '-') && h1.isDigit && h2.isDigit then
      let hrs := (h1.toNat - 48) * 10 + (h2.toNat - 48)
      let rest2 := match rest with
                   | ':' :: r => r
                   | r => r
      match rest2 with
      | m1 :: m2 :: rest3 =>
        if m1.isDigit && m2.isDigit then
          let base := hrs * 3600 + ((m1.toNat - 48) * 10 + (m2.toNat - 48)) * 60
          match pTzSecs rest3 base with
          | some (v, rest4) => some (v, rest4)
          | none => some (base, rest3)
        else none
      | _ => none
    else none
  | _ => none

/-- Run a compiled format against the input; full match required
(`unconverted data remains` otherwise).  Literal characters match
case-insensitively (the whole strptime regex carries IGNORECASE);
format whitespace matches `\s+`. -/
def runFmt : List FmtTok → List Char → DParts → Option DParts
  | [], [], acc => some acc
  | [], _ :: _, _ => none
  | tok :: toks, cs, acc =>
    match tok with
    | .ffY =>
      match pY cs with
      | some (v, rest) => runFmt toks rest { acc with y := v }
      | none => none
    | .ffm =>
      match pMon cs with
      | some (v, rest) => runFmt toks rest { acc with mo := v }
      | none => none
    | .ffd =>
      match pDay cs with
      | some (v, rest) => runFmt toks rest { acc with dy := v }
      | none => none
    | .ffH =>
      match pHour cs with
      | some (v, rest) => runFmt toks rest { acc with hh := v }
      | none => none
    | .ffMi =>
      match pMin cs with
      | some (v, rest) => runFmt toks rest { acc with mi := v }
      | none => none
    | .ffS =>
      match pSec cs with
      | some (v, rest) => runFmt toks rest { acc with ss := v }
      | none => none
    | .ffa =>
      match pName weekdayNames 0 cs with
      | some (_, rest) => runFmt toks rest acc
      | none => none
    | .ffb =>
      match pName monthAbbr 1 cs with
      | some (v, rest) => runFmt toks rest { acc with mo := v }
      | none => none
    | .ffB =>
      match pName monthFull 1 cs with
      | some (v, rest) => runFmt toks rest { acc with mo := v }
      | none => none
    | .ffZname =>
      match pName tzNames 0 cs with
      | some (_, rest) => runFmt toks rest acc
      | none => none
    | .ffz =>
      match pTz cs with
      | some (secs, rest) => if secs < 86400 then runFmt toks rest acc else none
      | none => none
    | .lit c =>
      match cs with
      | x :: rest => if x.toLower == c.toLower then runFmt toks rest acc else none
      | [] => none
    | .ws =>
      let sp := cs.takeWhile isPySpace
      if sp.isEmpty then none else runFmt toks (cs.drop sp.length) acc

/-- Format `'%a, %d %b %Y %H:%M:%S %Z'` (RFC 822). -/
def fmt1 : List FmtTok :=
  [.ffa, .lit ',', .ws, .ffd, .ws, .ffb, .ws, .ffY, .ws, .ffH, .lit ':', .ffMi, .lit ':', .ffS, .ws, .ffZname]

/-- Format `'%Y-%m-%dT%H:%M:%SZ'` (ISO 8601 with Z). -/
def fmt2 : List FmtTok :=
  [.ffY, .lit '-', .ffm, .lit '-', .ffd, .lit 'T', .ffH, .lit ':', .ffMi, .lit ':', .ffS, .lit 'Z']

/-- Format `'%Y-%m-%dT%H:%M:%S%z'` (ISO 8601 with offset). -/
def fmt3 : List FmtTok :=
  [.ffY, .lit '-', .ffm, .lit '-', .ffd, .lit 'T', .ffH, .lit ':', .ffMi, .lit ':', .ffS, .ffz]

/-- Format `'%Y-%m-%d %H:%M:%S UTC'`. -/
def fmt4 : List FmtTok :=
  [.ffY, .lit '-', .ffm, .lit '-', .ffd, .ws, .ffH, .lit ':', .ffMi, .lit ':', .ffS, .ws, .lit 'U', .lit 'T', .lit 'C']

/-- Format `'%Y-%m-%d %H:%M:%S'`. -/
def fmt5 : List FmtTok :=
  [.ffY, .lit '-', .ffm, .lit '-', .ffd, .ws, .ffH, .lit ':', .ffMi, .lit ':', .ffS]

/-- Format `'%Y-%m-%d'`. -/
def fmt6 : List FmtTok := [.ffY, .lit '-', .ffm, .lit '-', .ffd]

/-- Format `'%d %b %Y'`. -/
def fmt7 : List FmtTok := [.ffd, .ws, .ffb, .ws, .ffY]

/-- Format `'%B %d, %Y'`. -/
def fmt8 : List FmtTok := [.ffB, .ws, .ffd, .lit ',', .ws, .ffY]

/-- Format `'%m/%d/%Y'`. -/
def fmt9 : List FmtTok := [.ffm, .lit '/', .ffd, .lit '/', .ffY]

/-- Format `'%d/%m/%Y'`. -/
def fmt10 : List FmtTok := [.ffd, .lit '/', .ffm, .lit '/', .ffY]

def allFormats : List (List FmtTok) := [fmt1, fmt2, fmt3, fmt4, fmt5, fmt6, fmt7, fmt8, fmt9, fmt10]

def isLeap (y : Nat) : Bool := y % 4 == 0 && (!(y % 100 == 0) || y % 400 == 0)

def daysInMonth (y m : Nat) : Nat :=
  if m == 2 then (if isLeap y then 29 else 28)
  else if m == 4 || m == 6 || m == 9 || m == 11 then 30
  else 31

/-- The validation the `datetime` constructor performs beyond the
component regexes: a real calendar day, year at least 1, seconds at
most 59. -/
def validParts (p : DParts) : Bool :=
  decide (1 ≤ p.y) && decide (p.dy ≤ daysInMonth p.y p.mo) && decide (p.ss ≤ 59)

def pad2 (n : Nat) : String := if n < 10 then "0" ++ toString n else toString n

def pad4 (n : Nat) : String :=
  if n < 10 then "000" ++ toString n
  else if n < 100 then "00" ++ toString n
  else if n < 1000 then "0" ++ toString n
  else toString n

/-- Python `datetime.strftime('%Y-%m-%d')`. -/
def fmtDate (p : DParts) : String := pad4 p.y ++ "-" ++ pad2 p.mo ++ "-" ++ pad2 p.dy

/-- Try the ten formats in source order. -/
def tryFormatsGo : List (List FmtTok) → List Char → Option String
  | [], _ => none
  | f :: fs, cs =>
    match runFmt f cs initParts with
    | some p => if validParts p then some (fmtDate p) else tryFormatsGo fs cs
    | none => tryFormatsGo fs cs

def tryFormats (s : String) : Option String := tryFormatsGo allFormats s.data

/-- Greedy `\d{1,2}` with no trailing constraint. -/
def take2Digits (cs : List Char) : List Char × List Char :=
  match cs with
  | a :: b :: rest =>
    if a.isDigit then
      (if b.isDigit then ([a, b], rest) else ([a], b :: rest))
    else ([], cs)
  | [a] => if a.isDigit then ([a], []) else ([], [a])
  | [] => ([], [])

/-- The middle one-or-two digits plus separator of the embedded-date regex, with the
one-character backtrack the engine performs. -/
def dateMid : List Char → Option (List Char × Char × List Char)
  | m1 :: rest =>
    if m1.isDigit then
      match rest with
      | m2 :: rest2 =>
        if m2.isDigit then
          match rest2 with
          | s2 :: rest3 =>
            if s2 == '-' || s2 == '/' then some ([m1, m2], s2, rest3) else none
          | [] => none
        else if m2 == '-' || m2 == '/' then some ([m1], m2, rest2)
        else none
      | [] => none
    else none
  | [] => none

/-- The embedded-date group (four digits, separator, one or two digits,
separator, one or two digits) anchored at the current position;
returns the matched group. -/
def dateAt (cs : List Char) : Option (List Char) :=
  match cs with
  | a :: b :: c :: d :: s1 :: rest =>
    if a.isDigit && b.isDigit && c.isDigit && d.isDigit && (s1 == '-' || s1 == '/') then
      match dateMid rest with
      | some (mid, s2, rest2) =>
        let ds := (take2Digits rest2).1
        if ds.isEmpty then none
        else some ([a, b, c, d] ++ [s1] ++ mid ++ [s2] ++ ds)
      | none => none
    else none
  | _ => none

/-- Leftmost search for the embedded-date pattern. -/
def dateScan : List Char → Option (List Char)
  | [] => none
  | c :: cs =>
    match dateAt (c :: cs) with
    | some g => some g
    | none => dateScan cs

def dateRegexSearch (s : String) : Option String := (dateScan s.data).map String.mk

/-- Function `normalize_date`, with fuel bounding the recursion depth; `.error`
models the `RecursionError` raised when the extracted substring never
parses and the function keeps recursing on itself. -/
def normalizeDateFuel : Nat → String → Except Unit String
  | 0, _ => .error ()
  | fuel + 1, s =>
    if s == "" then .ok "Unknown Date"
    else
      match tryFormats s with
      | some out => .ok out
      | none =>
        match dateRegexSearch s with
        | some g => normalizeDateFuel fuel (String.mk (g.data.map (fun c => if c == '/' then '-' else c)))
        | none => .ok "Unknown Date"

/-- Function `normalize_date` at the CPython default recursion limit. -/
def normalizeDate (s : String) : Except Unit String := normalizeDateFuel 1000 s

/-! ### extract_details_in_batch (process_data.py lines 237-415)

The LLM interaction is abstracted as a list of per-attempt responses:
`none` for an API error or malformed JSON, `some rs` for a parsed
results array (records are JSON objects, reusing `EDict`).  The
processing of a successful response runs inside the `try` block, so a
raised exception there (a non-string date handed to `re.search`, or the
date normalizer blowing the recursion limit) abandons the attempt and
falls through to the retry loop; the post-retry fallback loop runs
outside every `try`, so its exceptions propagate to the caller.
-/

/-- A prepared entry, as built by `prepare_entry_for_extraction`. -/
structure PEntry where
  pid : String
  title : String
  summary : String
  source : String
  sourceType : String
  published : String
deriving DecidableEq

/-- The `details_map`: insertion-ordered dict keyed by whatever value the
model supplied as `id`. -/
abbrev DetailsMap := List (FVal × EDict)

def dmHasKey (m : DetailsMap) (k : FVal) : Bool := m.any (fun p => decide (p.1 = k))

/-- Python dict assignment `m[k] = v` (replace in place, else append). -/
def dmInsert (m : DetailsMap) (k : FVal) (v : EDict) : DetailsMap :=
  if dmHasKey m k then m.map (fun p => if p.1 = k then (k, v) else p)
  else m ++ [(k, v)]

/-- Function `normalize_date` applied to a JSON value: `re.search` raises
`TypeError` on a non-string argument (the strptime `TypeError` is
caught by the format loop). -/
def normalizeDateF : FVal → Except Unit String
  | .str s => normalizeDate s
  | .obj _ _ => .error ()

/-- Python `result["date"] = normalized`. -/
def rUpdateDate (r : EDict) (nd : String) : EDict :=
  r.map (fun p => if p.1 == "date" then (p.1, FVal.str nd) else p)

/-- The per-record details dict built at lines 365-372. -/
def recordDetails (r : EDict) : EDict :=
  [("disaster_type", (lookupE "disaster_type" r).getD (.str "Unknown Type")),
   ("location", (lookupE "location" r).getD (.str "Unknown Location")),
   ("date", (lookupE "date" r).getD (.str "Unknown Date")),
   ("severity", (lookupE "severity" r).getD (.obj "None" false)),
   ("alert_level", (lookupE "alert_level" r).getD (.str "")),
   ("description", (lookupE "description" r).getD (.str ""))]

/-- Process one model result record: skipped when `id` is missing or
falsy; the date is normalized first when present and truthy. -/
def processResult (dm : DetailsMap) (r : EDict) : Except Unit DetailsMap :=
  match lookupE "id" r with
  | none => .ok dm
  | some idv =>
    if truthyF idv then
      match lookupE "date" r with
      | some dv =>
        if truthyF dv then
          match normalizeDateF dv with
          | .error u => .error u
          | .ok nd => .ok (dmInsert dm idv (recordDetails (rUpdateDate r nd)))
        else .ok (dmInsert dm idv (recordDetails r))
      | none => .ok (dmInsert dm idv (recordDetails r))
    else .ok dm

def processAll : DetailsMap → List EDict → Except Unit DetailsMap
  | dm, [] => .ok dm
  | dm, r :: rest =>
    match processResult dm r with
    | .error u => .error u
    | .ok dm2 => processAll dm2 rest

/-- Python `entry['summary'][:100] + "..."` when longer than 100 characters. -/
def truncDesc (s : String) : String := if 100 < s.length then s.take 100 ++ "..." else s

/-- The synthesized fallback record for one prepared entry. -/
def fallbackFor (e : PEntry) : Except Unit EDict :=
  match normalizeDate e.published with
  | .error u => .error u
  | .ok nd =>
    .ok [("disaster_type", FVal.str "Unknown Type"),
         ("location", .str "Unknown Location"),
         ("date", .str nd),
         ("severity", .obj "None" false),
         ("alert_level", .str ""),
         ("description", .str (truncDesc e.summary))]

/-- Lines 374-384: add a fallback for each input id missing from the
map (still inside the `try`). -/
def addMissingFallbacks : List PEntry → DetailsMap → Except Unit DetailsMap
  | [], dm => .ok dm
  | e :: rest, dm =>
    if dmHasKey dm (.str e.pid) then addMissingFallbacks rest dm
    else
      match fallbackFor e with
      | .error u => .error u
      | .ok fb => addMissingFallbacks rest (dmInsert dm (.str e.pid) fb)

/-- One successful-response attempt: process every record, then fill in
missing input ids. -/
def processResults (entries : List PEntry) (rs : List EDict) : Except Unit DetailsMap :=
  match processAll [] rs with
  | .error u => .error u
  | .ok dm => addMissingFallbacks entries dm

/-- Lines 403-415: the post-retry fallback map, built outside any
`try`. -/
def finalFallbackGo : DetailsMap → List PEntry → Except Unit DetailsMap
  | dm, [] => .ok dm
  | dm, e :: rest =>
    match fallbackFor e with
    | .error u => .error u
    | .ok fb => finalFallbackGo (dmInsert dm (.str e.pid) fb) rest

/-- The retry loop: the first attempt whose response parses and whose
processing does not raise produces the returned map; exhausted attempts
fall through to the final fallback. -/
def extractGo (entries : List PEntry) : List (Option (List EDict)) → Except Unit DetailsMap
  | [] => finalFallbackGo [] entries
  | none :: rest => extractGo entries rest
  | some rs :: rest =>
    match processResults entries rs with
    | .ok dm => .ok dm
    | .error _ => extractGo entries rest

/-- Function `extract_details_in_batch(entries)` given the per-attempt model
responses. -/
def extractDetailsInBatch (entries : List PEntry) (responses : List (Option (List EDict))) : Except Unit DetailsMap :=
  if entries.isEmpty then .ok [] else extractGo entries responses

/-! ### The matching-and-grouping loop of group_disasters
(process_data.py lines 463-517) -/

/-- One stored group member (lines 509-516); direct indexing raises
`KeyError` on a missing field. -/
structure GMember where
  mtitle : FVal
  msummary : FVal
  mlink : FVal
  mpublished : FVal
  msource : FVal
  mdetails : EDict
deriving DecidableEq

abbrev Grouped := List (String × List GMember)

/-- Python `d[k]`. -/
def pyIndexE (d : EDict) (k : String) : Except String FVal :=
  match lookupE k d with
  | some v => .ok v
  | none => .error "KeyError"

def truthyOptF : Option FVal → Bool
  | some v => truthyF v
  | none => false

/-- The grouping key built at lines 484-506 from the extracted details,
the raw `source_type`, and (for the SPC override) the raw title. -/
def buildKey (disaster : EDict) (details : EDict) : Except String String :=
  let dtype := pyStrF ((lookupE "disaster_type" details).getD (.str "Unknown Type"))
  let loc := pyStrF ((lookupE "location" details).getD (.str "Unknown Location"))
  let date := pyStrF ((lookupE "date" details).getD (.str "Unknown Date"))
  let baseKey : Except String String :=
    if decide (lookupE "source_type" disaster = some (.str "gdacs")) &&
       truthyOptF (lookupE "alert_level" details) then
      match (lookupE "alert_level" details).getD (.str "") with
      | .str s => .ok (dtype ++ " (" ++ capitalizeS s ++ " Alert) in " ++ loc ++ " on " ++ date)
      | .obj _ _ => .error "AttributeError"
    else if truthyOptF (lookupE "severity" details) then
      .ok (dtype ++ " (" ++ pyStrF ((lookupE "severity" details).getD (.str "")) ++ ") in " ++ loc ++ " on " ++ date)
    else .ok (dtype ++ " in " ++ loc ++ " on " ++ date)
  match baseKey with
  | .error er => .error er
  | .ok k0 =>
    if decide (lookupE "source_type" disaster = some (.str "noaa_spc")) then
      match (lookupE "title" disaster).getD (.str "") with
      | .str t =>
        if containsS "spc md" (lowerS t) then
          match mdSearch (lowerS t).data with
          | some n => .ok ("Severe Weather Discussion (MD " ++ n ++ ")")
          | none => .ok k0
        else .ok k0
      | .obj _ _ => .error "AttributeError"
    else .ok k0

/-- The member record appended at lines 509-516. -/
def memberOf (disaster : EDict) (details : EDict) : Except String GMember :=
  match pyIndexE disaster "title" with
  | .error er => .error er
  | .ok t =>
    match pyIndexE disaster "link" with
    | .error er => .error er
    | .ok l =>
      match pyIndexE disaster "published" with
      | .error er => .error er
      | .ok pb =>
        match pyIndexE disaster "source" with
        | .error er => .error er
        | .ok src =>
          .ok ⟨t, (lookupE "summary" disaster).getD (.str ""), l, pb, src, details⟩

/-- Python `defaultdict(list)` append: extend the key's list, else create it at
the end. -/
def appendToGroup (g : Grouped) (k : String) (m : GMember) : Grouped :=
  if g.any (fun p => p.1 == k) then
    g.map (fun p => if p.1 == k then (p.1, p.2 ++ [m]) else p)
  else g ++ [(k, [m])]

def membersAt (g : Grouped) (k : String) : List GMember :=
  match g.find? (fun p => p.1 == k) with
  | some p => p.2
  | none => []

def keyAndAppend (g : Grouped) (d det : EDict) : Except String Grouped :=
  match buildKey d det with
  | .error er => .error er
  | .ok k =>
    match memberOf d det with
    | .error er => .error er
    | .ok m => .ok (appendToGroup g k m)

/-- One iteration of the loop: non-dicts are skipped with a warning;
missing or falsy details skip the entry; the post-extraction filter is
wrapped in `try` so a raised exception falls through to key
construction; key construction and member building are not wrapped, so
their exceptions propagate. -/
def processDisaster (allD : List (String × EDict)) (g : Grouped) (e : PyEntry) : Except String Grouped :=
  match e with
  | .dict d =>
    let eid := (lookupE "link" d).getD (.str "")
    let detOpt : Option EDict :=
      match eid with
      | .str s => lookupA s allD
      | .obj _ _ => none
    match detOpt with
    | none => .ok g
    | some det =>
      if det.isEmpty then .ok g
      else
        match shouldFilterEntry (.dict d) (some det) with
        | .ok true => .ok g
        | .ok false => keyAndAppend g d det
        | .error _ => keyAndAppend g d det
  | _ => .ok g

/-- The whole matching-and-grouping pass over the pre-filtered list. -/
def groupPhase (allD : List (String × EDict)) : Grouped → List PyEntry → Except String Grouped
  | g, [] => .ok g
  | g, e :: rest =>
    match processDisaster allD g e with
    | .error er => .error er
    | .ok g2 => groupPhase allD g2 rest

/-! ### The dedup ledger and the main cycle (main.py) -/

/-- The `sent_entries` table: rows of (link primary key, timestamp). -/
abbrev SentDB := List (String × Int)

/-- Query `SELECT link FROM sent_entries` (as the set the caller builds). -/
def loadSentEntries (db : SentDB) : List String := db.map (fun p => p.1)

/-- Statement `INSERT OR IGNORE` for a single row. -/
def insertIgnore (db : SentDB) (l : String) (now : Int) : SentDB :=
  if db.any (fun p => p.1 == l) then db else db ++ [(l, now)]

/-- Function `save_sent_entries`: executemany of INSERT OR IGNORE. -/
def saveSentEntries (db : SentDB) (links : List String) (now : Int) : SentDB :=
  links.foldl (fun acc l => insertIgnore acc l now) db

/-- The retention window of `cleanup_old_entries`: 30 days. -/
def retentionSeconds : Int := 30 * 86400

/-- Statement `DELETE FROM sent_entries WHERE timestamp < datetime('now', '-30 day')`. -/
def cleanupOldEntries (db : SentDB) (now : Int) : SentDB :=
  db.filter (fun p => !(decide (p.2 < now - retentionSeconds)))

/-- The cycle environment: the fetched entry links, the summary
`process_disasters` produced (if any), and the Boolean result
`send_disaster_alert_block` returned. -/
structure CycleEnv where
  fetched : List String
  summaryResult : Option String
  sendOk : Bool
deriving DecidableEq

/-- One run of `main()` (lines 120-163) at the ledger level: prune, load,
drop already-sent links, and when a summary was produced, send the alert
and save every new link.  The second component records the send that
happened and the Boolean it returned; `main` discards that Boolean and
saves unconditionally. -/
def mainCycle (env : CycleEnv) (db : SentDB) (now : Int) : SentDB × Option Bool :=
  let db1 := cleanupOldEntries db now
  let sent := loadSentEntries db1
  let newLinks := env.fetched.filter (fun l => !(sent.contains l))
  if newLinks.isEmpty then (db1, none)
  else
    match env.summaryResult with
    | some _ => (saveSentEntries db1 newLinks now, some env.sendOk)
    | none => (db1, none)

/-- A prepared entry whose `published` field holds an embedded
date-like substring that is not a real calendar date. -/
def c1BadEntry : PEntry :=
  ⟨"http://example.com/eq1", "Quake", "summary text", "USGS Feed", "usgs", "2023-02-30"⟩

/-- A cycle in which one new entry is fetched, a summary is produced,
and the Slack send fails (`send_disaster_alert_block` returns false). -/
def c2Env : CycleEnv := ⟨["http://ex/a"], some "daily summary", false⟩

/-- The magnitude pattern as the claim words it: an OPTIONAL `m` or
`magnitude` token followed by a decimal number, at the start or after
whitespace.  Written from the claim text, not from the source, to test
the claim against `usgsSearch` (the source regex, which requires the
token); anchored variant. -/
def claimMagAt (cs : List Char) : Option ℚ :=
  match usgsTokenAt cs with
  | some q => some q
  | none => numAt (cs.dropWhile isPySpace)

/-- Scan part of the claim-worded pattern. -/
def claimMagScan : List Char → Option ℚ
  | [] => none
  | c :: cs =>
    if isPySpace c then
      match claimMagAt cs with
      | some q => some q
      | none => claimMagScan cs
    else claimMagScan cs

/-- Full search for the claim-worded (token-optional) pattern. -/
def claimMagSearch (st : String) : Option ℚ :=
  match claimMagAt st.data with
  | some q => some q
  | none => claimMagScan st.data

/-- A USGS entry whose title carries a bare decimal number (no
`m`/`magnitude` token). -/
def c5CexEntry : PyEntry :=
  .dict [("source_type", .str "usgs"), ("title", .str "Depth 3.0 km quake"),
         ("summary", .str ""), ("link", .str "")]

/-- The magnitude `should_filter_entry` actually acts on: the first
title match, else the first summary match. -/
def usgsParsedMag (title summary : String) : Option ℚ :=
  match usgsSearch title with
  | some m => some m
  | none => usgsSearch summary

/-- A USGS entry kept because its parsed magnitude 6.5 is at least 5.8. -/
def c5WitEntry : PyEntry :=
  .dict [("source_type", .str "usgs"), ("title", .str "M6.5 - Somewhere"),
         ("summary", .str ""), ("link", .str "")]

def c6E1 : EDict := [("source_type", .str "noaa_spc"), ("title", .str "SPC MD 100 Valid concerning")]

def c6E2 : EDict := [("source_type", .str "noaa_spc"), ("title", .str "SPC MD 200 Valid concerning")]

def c6Det : EDict := [("disaster_type", .str "Severe Storm")]

def c6WA : EDict := [("source_type", .str "usgs"), ("link", .str "http://a/1")]

def c6WB : EDict := [("source_type", .str "usgs"), ("link", .str "http://b/2")]

def c7D : EDict := [("source_type", .str "noaa_spc"), ("title", .str "SPC MD 1234 Severe Tstorm")]

def countLink (db : SentDB) (l : String) : Nat := db.countP (fun p => p.1 == l)

def c10D : EDict :=
  [("source_type", FVal.str "usgs"), ("title", .str "Quake report"), ("summary", .str ""),
   ("link", .str "L1"), ("published", .str "today"), ("source", .str "USGS Feed")]

def c10Det : EDict := [("disaster_type", FVal.obj "7" true)]

def c10M : GMember :=
  ⟨.str "Quake report", .str "", .str "L1", .str "today", .str "USGS Feed", c10Det⟩

/-- A GDACS entry filtered (without details) by the "green earthquake"
title heuristic, paired with a details dict whose `alert_level` is a
non-string JSON value. -/
def c3Entry : PyEntry :=
  .dict [("source_type", .str "gdacs"), ("title", .str "Alert: Green earthquake near X")]

def c3Det : EDict := [("alert_level", FVal.obj "5" true)]

/-- A GDACS entry filtered by its title prefix, with well-typed details. -/
def c3WitEntry : PyEntry :=
  .dict [("source_type", .str "gdacs"), ("title", .str "Green alert: Earthquake")]

def c3WitDet : EDict := [("alert_level", FVal.str "red")]

/-! ### Claim results -/

lemma normalizeDateFuel_feb30_step (n : Nat) :
    normalizeDateFuel (n + 1) "2023-02-30" = normalizeDateFuel n "2023-02-30" := rfl

/-- Evaluation `normalize_date("2023-02-30")` never returns: every format fails
(February has no day 30), the embedded-date regex re-extracts the whole
string, and the function recurses on itself until the recursion limit. -/
lemma normalizeDate_feb30 : ∀ n, normalizeDateFuel n "2023-02-30" = .error () := by
  intro n
  induction n with
  | zero => rfl
  | succ k ih => rw [normalizeDateFuel_feb30_step]; exact ih

/-- Claim C1: the claim states that `extract_details_in_batch` never
raises past its boundary and synthesizes a fallback for every entry
after retries are exhausted.  The code violates this: with every
attempt failing, the post-retry fallback loop (which runs outside any
`try`) calls `normalize_date` on the entry's `published` field, and for
`"2023-02-30"` that call recurses on its own extracted substring until
`RecursionError` propagates out of the function. -/
theorem extractBatch_raises_on_unparsable_published :
    extractDetailsInBatch [c1BadEntry] [Option.none, Option.none] = .error () := by
  have h : normalizeDate "2023-02-30" = .error () := normalizeDate_feb30 1000
  simp [extractDetailsInBatch, extractGo, finalFallbackGo, fallbackFor, c1BadEntry, h]

/-- Claim C2: the claim states that the cycle's links reach
`save_sent_entries` only when the notification succeeded.  The code
violates this: `main` discards the Boolean returned by
`send_disaster_alert_block` and saves every new link whenever a summary
exists, so a link is recorded in the ledger even though the send
returned failure. -/
theorem mainCycle_saves_despite_send_failure :
    (mainCycle c2Env [] 0).2 = some false ∧
    "http://ex/a" ∈ loadSentEntries (mainCycle c2Env [] 0).1 ∧
    "http://ex/a" ∉ loadSentEntries ([] : SentDB) := by decide

/-- Claim C4 (counterexample): the claim states every non-dict entry is
filtered (returns true).  The code returns true only for `None`; any
other non-dict value falls through every source-type branch (all its
fields read as `""`) and is kept. -/
theorem shouldFilter_nondict_false_cex :
    shouldFilterEntry (.nondict "not a feed entry") Option.none = .ok false ∧
    ¬ shouldFilterEntry (.nondict "not a feed entry") Option.none = .ok true := by decide

/-- Claim C4 (amended): `should_filter_entry` returns true for `None`
and returns false, without raising, for every other non-dict value,
whatever the details argument. -/
theorem shouldFilter_none_true_nondict_false (r : String) (dd : Option EDict) :
    shouldFilterEntry PyEntry.pynone dd = .ok true ∧
    shouldFilterEntry (.nondict r) dd = .ok false :=
  ⟨rfl, rfl⟩

lemma normalizeDateFuel_unknown (n : Nat) (s : String) (h1 : tryFormats s = none)
    (h2 : dateRegexSearch s = none) :
    normalizeDateFuel (n + 1) s = .ok "Unknown Date" := by
  simp only [normalizeDateFuel]
  by_cases hs : s == ""
  · simp [hs]
  · simp [hs, h1, h2]

/-- Claim C8: the three documented normalizations hold, and every input
that matches no known format and contains no embedded date-like
substring yields the sentinel. -/
theorem normalizeDate_spec :
    normalizeDate "2024-12-31T14:00:00Z" = .ok "2024-12-31" ∧
    normalizeDate "not a date" = .ok "Unknown Date" ∧
    normalizeDate "Updated: 2023/12/25 irrelevant text" = .ok "2023-12-25" ∧
    (∀ s : String, tryFormats s = none → dateRegexSearch s = none →
      normalizeDate s = .ok "Unknown Date") := by
  refine ⟨by decide, by decide, by decide, ?_⟩
  intro s h1 h2
  exact normalizeDateFuel_unknown 999 s h1 h2

/-- Witness for C8: the universal clause applied at a concrete string. -/
theorem normalizeDate_spec_witness :
    tryFormats "hello world" = none ∧ dateRegexSearch "hello world" = none ∧
    normalizeDate "hello world" = .ok "Unknown Date" :=
  ⟨by decide, by decide, normalizeDate_spec.2.2.2 "hello world" (by decide) (by decide)⟩

/-- Claim C5 (counterexample): under the claim's own pattern (token
optional) the title parses to magnitude 3.0, which is below 5.8, so the
claim demands filtering; the source regex requires the token, finds no
match, and keeps the entry. -/
theorem usgs_tokenless_magnitude_cex :
    claimMagSearch (lowerS "Depth 3.0 km quake") = some (mkRat 3 1) ∧
    mkRat 3 1 < usgsThreshold ∧
    shouldFilterEntry c5CexEntry Option.none = .ok false := by decide

lemma shouldFilterEntry_dict (d : EDict) (dd : Option EDict) :
    shouldFilterEntry (.dict d) dd =
      match entryFields (.dict d) with
      | .error er => .error er
      | .ok (st, title, summary, link) => filterChain (.dict d) dd st title summary link := rfl

@[simp] lemma magCheckDetails_none (q : ℚ) : magCheckDetails Option.none q = .ok false := rfl

@[simp] lemma greenAlertCheck_none : greenAlertCheck Option.none = .ok false := rfl

/-- Claim C5 (amended): for a dict USGS entry whose lowercased title or
summary contains a magnitude in the source pattern (a required `m` or
`magnitude` token, optional whitespace, then a decimal number; the
summary is consulted only when the title has no match), the filter
decision with absent details is exactly `magnitude < 5.8`. -/
theorem usgs_threshold (d : EDict) (t s l : String) (m : ℚ)
    (hst : fieldLower (.dict d) "source_type" = .ok "usgs")
    (ht : fieldLower (.dict d) "title" = .ok t)
    (hsm : fieldLower (.dict d) "summary" = .ok s)
    (hl : fieldLower (.dict d) "link" = .ok l)
    (hm : usgsParsedMag t s = some m) :
    shouldFilterEntry (.dict d) Option.none = .ok (decide (m < usgsThreshold)) := by
  have hf : entryFields (.dict d) = .ok ("usgs", t, s, l) := by
    unfold entryFields
    rw [hst, ht, hsm, hl]
  rw [shouldFilterEntry_dict, hf]
  show filterChain (.dict d) Option.none "usgs" t s l = Except.ok (decide (m < usgsThreshold))
  unfold filterChain
  have e1 : ("usgs" == "noaa_spc") = false := rfl
  have e2 : ("usgs" == "gdacs") = false := rfl
  have e3 : ("usgs" == "usgs") = true := rfl
  simp only [e1, e2, e3, Bool.false_and, Bool.false_eq_true, if_false, eq_self_iff_true, if_true]
  unfold usgsChecks
  unfold usgsParsedMag at hm
  cases hts : usgsSearch t with
  | some m1 =>
    rw [hts] at hm
    simp at hm
    subst hm
    simp only [hts]
    by_cases hcmp : m1 < usgsThreshold <;> simp [hcmp]
  | none =>
    rw [hts] at hm
    simp at hm
    simp only [hts, hm]
    by_cases hcmp : m < usgsThreshold <;> simp [hcmp]

/-- Witness for C5: the amended theorem applied at magnitude 6.5. -/
theorem usgs_threshold_witness :
    usgsParsedMag "m6.5 - somewhere" "" = some (mkRat 13 2) ∧
    shouldFilterEntry c5WitEntry Option.none = .ok (decide (mkRat 13 2 < usgsThreshold)) :=
  ⟨by decide,
   usgs_threshold [("source_type", .str "usgs"), ("title", .str "M6.5 - Somewhere"),
                   ("summary", .str ""), ("link", .str "")]
     "m6.5 - somewhere" "" "" (mkRat 13 2)
     (by decide) (by decide) (by decide) (by decide) (by decide)⟩

/-- Claim C6 (counterexample): two entries with identical extracted
details and identical `source_type` but different titles receive
different grouping keys — the SPC MD override reads the title, so the
key is not a function of (details, source_type) alone. -/
theorem groupKey_depends_on_title_cex :
    lookupE "source_type" c6E1 = lookupE "source_type" c6E2 ∧
    buildKey c6E1 c6Det = .ok "Severe Weather Discussion (MD 100)" ∧
    buildKey c6E2 c6Det = .ok "Severe Weather Discussion (MD 200)" ∧
    buildKey c6E1 c6Det ≠ buildKey c6E2 c6Det := by decide

/-- Claim C6 (amended): key construction is deterministic, and the key
is a pure function of the extracted details together with the entry's
raw `source_type` and `title` fields — no other entry field influences
it. -/
theorem groupKey_pure_function :
    (∀ d det : EDict, buildKey d det = buildKey d det) ∧
    (∀ d1 d2 det : EDict,
      lookupE "source_type" d1 = lookupE "source_type" d2 →
      lookupE "title" d1 = lookupE "title" d2 →
      buildKey d1 det = buildKey d2 det) := by
  refine ⟨fun d det => rfl, fun d1 d2 det h1 h2 => ?_⟩
  unfold buildKey
  rw [h1, h2]

/-- Witness for C6: two entries that agree on `source_type` and `title`
(but not on `link`) receive the same key. -/
theorem groupKey_pure_function_witness :
    buildKey c6WA c6Det = buildKey c6WB c6Det :=
  groupKey_pure_function.2 c6WA c6WB c6Det (by decide) (by decide)

/-- Claim C7: for an entry that reaches key construction with raw
`source_type` equal to `"noaa_spc"` and a title matching the code's MD
pattern (`"spc md"` contained in the lowercased title and `md\s+(\d+)`
matching it), the key is exactly `Severe Weather Discussion (MD <n>)`,
whatever the extracted details would otherwise contribute. -/
theorem spc_md_override (d det : EDict) (t n : String)
    (hsrc : lookupE "source_type" d = some (.str "noaa_spc"))
    (ht : (lookupE "title" d).getD (.str "") = .str t)
    (hc : containsS "spc md" (lowerS t) = true)
    (hmd : mdSearch (lowerS t).data = some n) :
    buildKey d det = .ok ("Severe Weather Discussion (MD " ++ n ++ ")") := by
  unfold buildKey
  rw [hsrc]
  have hg : (decide (some (FVal.str "noaa_spc") = some (FVal.str "gdacs"))) = false := rfl
  have hn : (decide (some (FVal.str "noaa_spc") = some (FVal.str "noaa_spc"))) = true := rfl
  simp only [hg, hn, Bool.false_and, Bool.false_eq_true, if_false, if_true, ht, hc, hmd]
  split
  · rename_i heq
    split_ifs at heq
  · rfl

/-- Witness for C7: the override theorem at MD 1234. -/
theorem spc_md_override_witness :
    buildKey c7D c6Det = .ok "Severe Weather Discussion (MD 1234)" :=
  spc_md_override c7D c6Det "SPC MD 1234 Severe Tstorm" "1234"
    (by decide) (by decide) (by decide) (by decide)

lemma save_single (db : SentDB) (l : String) (now : Int) :
    saveSentEntries db [l] now = insertIgnore db l now := rfl

lemma mem_load_insertIgnore (db : SentDB) (l : String) (now : Int) :
    l ∈ loadSentEntries (insertIgnore db l now) := by
  unfold insertIgnore loadSentEntries
  by_cases h : db.any (fun p => p.1 == l)
  · rw [if_pos h]
    rcases List.any_eq_true.mp h with ⟨p, hp, hb⟩
    exact List.mem_map.mpr ⟨p, hp, by simpa using hb⟩
  · rw [if_neg h]
    simp

lemma countLink_insertIgnore (db : SentDB) (l : String) (now : Int)
    (h : countLink db l ≤ 1) : countLink (insertIgnore db l now) l = 1 := by
  unfold countLink at h ⊢
  unfold insertIgnore
  by_cases ha : db.any (fun p => p.1 == l)
  · rw [if_pos ha]
    rcases List.any_eq_true.mp ha with ⟨p, hp, hb⟩
    have h1 : 0 < db.countP (fun p => p.1 == l) := List.countP_pos_iff.mpr ⟨p, hp, hb⟩
    omega
  · rw [if_neg ha, List.countP_append]
    have h0 : db.countP (fun p => p.1 == l) = 0 := by
      rw [List.countP_eq_zero]
      intro a hma hcontra
      exact ha (List.any_eq_true.mpr ⟨a, hma, hcontra⟩)
    rw [h0]
    simp [List.countP_cons]

lemma cleanup_mem (db : SentDB) (l : String) (t cnow : Int)
    (hnd : (db.map (fun p => p.1)).Nodup) (hin : (l, t) ∈ db) :
    l ∈ loadSentEntries (cleanupOldEntries db cnow) ↔ ¬(t < cnow - retentionSeconds) := by
  induction db with
  | nil => cases hin
  | cons q rest ih =>
    rw [List.map_cons, List.nodup_cons] at hnd
    obtain ⟨hq, hrest⟩ := hnd
    rcases List.mem_cons.mp hin with heq | hmem
    · subst heq
      unfold cleanupOldEntries loadSentEntries
      by_cases hk : t < cnow - retentionSeconds
      · rw [List.filter_cons]
        have hcond : (!decide (((l, t) : String × Int).2 < cnow - retentionSeconds)) = false := by
          simp [hk]
        rw [hcond]
        simp only [Bool.false_eq_true, if_false, hk, not_true, iff_false]
        intro hc
        rcases List.mem_map.mp hc with ⟨p, hp, hpl⟩
        exact hq (hpl ▸ List.mem_map.mpr ⟨p, (List.mem_filter.mp hp).1, rfl⟩)
      · rw [List.filter_cons]
        have hcond : (!decide (((l, t) : String × Int).2 < cnow - retentionSeconds)) = true := by
          simp [hk]
        rw [hcond]
        simp [hk]
    · have hql : ¬(q.1 = l) := fun h => hq (h ▸ List.mem_map.mpr ⟨(l, t), hmem, rfl⟩)
      have IH := ih hrest hmem
      unfold cleanupOldEntries loadSentEntries at IH ⊢
      rw [List.filter_cons]
      by_cases hkeep : (!decide (q.2 < cnow - retentionSeconds)) = true
      · rw [if_pos hkeep, List.map_cons, List.mem_cons]
        constructor
        · rintro (h | h)
          · exact absurd h.symm hql
          · exact IH.mp h
        · intro h
          exact Or.inr (IH.mpr h)
      · rw [if_neg hkeep]
        exact IH

/-- Claim C9: inserting a link makes it loadable; re-inserting is an
ignored no-op leaving exactly one row; pruning removes a stored link
exactly when its timestamp is older than the 30-day cutoff.  The
primary-key invariant (no duplicate links) is the standing hypothesis. -/
theorem ledger_ops (db : SentDB) (l : String) (t now now2 cnow : Int)
    (hnd : (db.map (fun p => p.1)).Nodup) :
    l ∈ loadSentEntries (saveSentEntries db [l] now) ∧
    countLink (saveSentEntries (saveSentEntries db [l] now) [l] now2) l = 1 ∧
    ((l, t) ∈ db →
      (l ∈ loadSentEntries (cleanupOldEntries db cnow) ↔ ¬(t < cnow - retentionSeconds))) := by
  have hc1 : countLink db l ≤ 1 := by
    have h2 : countLink db l = List.count l (db.map (fun p => p.1)) := by
      unfold countLink
      rw [List.count, List.countP_map]
      rfl
    rw [h2]
    exact List.nodup_iff_count_le_one.mp hnd l
  refine ⟨?_, ?_, fun hin => cleanup_mem db l t cnow hnd hin⟩
  · rw [save_single]
    exact mem_load_insertIgnore db l now
  · rw [save_single, save_single]
    exact countLink_insertIgnore _ _ _ (le_of_eq (countLink_insertIgnore _ _ _ hc1))

/-- Witness for C9: the ledger theorem at a one-row database. -/
theorem ledger_ops_witness :
    "http://w/1" ∈ loadSentEntries (saveSentEntries [("http://w/1", (0 : Int))] ["http://w/1"] 5) ∧
    countLink (saveSentEntries (saveSentEntries [("http://w/1", (0 : Int))] ["http://w/1"] 5)
      ["http://w/1"] 6) "http://w/1" = 1 ∧
    ("http://w/1" ∈ loadSentEntries (cleanupOldEntries [("http://w/1", (0 : Int))] 7) ↔
      ¬((0 : Int) < 7 - retentionSeconds)) := by
  have h := ledger_ops [("http://w/1", (0 : Int))] "http://w/1" 0 5 6 7 (by decide)
  exact ⟨h.1, h.2.1, h.2.2 (by decide)⟩

lemma mem_membersAt_append (g : Grouped) (k : String) (m : GMember) :
    m ∈ membersAt (appendToGroup g k m) k := by
  induction g with
  | nil =>
    simp [appendToGroup, membersAt, List.find?]
  | cons q rest ih =>
    by_cases hqk : (q.1 == k) = true
    · unfold appendToGroup
      have hany : (q :: rest).any (fun p => p.1 == k) = true := by
        simp [List.any_cons, hqk]
      rw [if_pos hany, List.map_cons, if_pos hqk]
      unfold membersAt
      rw [List.find?_cons_of_pos _ (by simpa using hqk)]
      simp
    · have hstep : appendToGroup (q :: rest) k m = q :: appendToGroup rest k m := by
        unfold appendToGroup
        by_cases hra : rest.any (fun p => p.1 == k) = true
        · have hall : (q :: rest).any (fun p => p.1 == k) = true := by
            simp [List.any_cons, hra]
          rw [if_pos hall, if_pos hra, List.map_cons, if_neg hqk]
        · have hall : (q :: rest).any (fun p => p.1 == k) = false := by
            have h1 : (q.1 == k) = false := by revert hqk; cases q.1 == k <;> simp
            have h2 : rest.any (fun p => p.1 == k) = false := by
              revert hra; cases rest.any (fun p => p.1 == k) <;> simp
            simp [List.any_cons, h1, h2]
          rw [if_neg (by simp [hall]), if_neg hra, List.cons_append]
      rw [hstep]
      unfold membersAt at ih ⊢
      rw [List.find?_cons_of_neg _ (by simpa using hqk)]
      exact ih

/-- Claim C10: in the grouping loop, when the post-extraction
`should_filter_entry` call raises, the exception is caught and the
entry proceeds to key construction and is appended to its group. -/
theorem groupDisasters_keeps_on_filter_error
    (allD : List (String × EDict)) (g : Grouped) (d det : EDict)
    (lid er k : String) (m : GMember)
    (hlink : lookupE "link" d = some (.str lid))
    (hdet : lookupA lid allD = some det)
    (hne : det ≠ [])
    (hfil : shouldFilterEntry (.dict d) (some det) = .error er)
    (hkey : buildKey d det = .ok k)
    (hmem : memberOf d det = .ok m) :
    processDisaster allD g (.dict d) = .ok (appendToGroup g k m) ∧
    m ∈ membersAt (appendToGroup g k m) k := by
  refine ⟨?_, mem_membersAt_append g k m⟩
  unfold processDisaster
  have hemp : det.isEmpty = false := by
    cases det with
    | nil => exact absurd rfl hne
    | cons a rest => rfl
  simp only [hlink, Option.getD_some, hdet, hemp, Bool.false_eq_true, if_false, hfil]
  unfold keyAndAppend
  rw [hkey, hmem]

/-- Witness for C10: a USGS entry whose extracted `disaster_type` is a
non-string JSON value makes the post-extraction filter raise
`AttributeError`; the loop still appends the entry to its group. -/
theorem groupDisasters_keeps_on_filter_error_witness :
    shouldFilterEntry (.dict c10D) (some c10Det) = .error "AttributeError" ∧
    processDisaster [("L1", c10Det)] [] (.dict c10D) =
      .ok (appendToGroup [] "7 in Unknown Location on Unknown Date" c10M) ∧
    c10M ∈ membersAt (appendToGroup [] "7 in Unknown Location on Unknown Date" c10M)
      "7 in Unknown Location on Unknown Date" := by
  have h := groupDisasters_keeps_on_filter_error [("L1", c10Det)] [] c10D c10Det "L1"
    "AttributeError" "7 in Unknown Location on Unknown Date" c10M
    (by decide) (by decide) (by decide) (by decide) (by decide) (by decide)
  exact ⟨by decide, h.1, h.2⟩

lemma okInj (b : Bool) (h : (Except.ok true : Except String Bool) = .ok b) : b = true :=
  (Except.ok.inj h).symm

lemma errNotOk {α β : Type} {er : α} {x : β} (h : (Except.error er : Except α β) = .ok x) : False :=
  Except.noConfusion h

lemma gdacs_mono (e : PyEntry) (dd : Option EDict) (t s : String) (b : Bool)
    (h1 : gdacsChecks e Option.none t s = .ok true)
    (h2 : gdacsChecks e dd t s = .ok b) : b = true := by
  unfold gdacsChecks at h1 h2
  cases hc1 : startsS "green " t with
  | true => rw [hc1, if_pos rfl] at h2; exact okInj b h2
  | false =>
  rw [hc1] at h1 h2
  rw [if_neg Bool.false_ne_true] at h1 h2
  cases hc2 : (containsS "green alert" t || containsS "green alert" s) with
  | true => rw [hc2, if_pos rfl] at h2; exact okInj b h2
  | false =>
  rw [hc2] at h1 h2
  rw [if_neg Bool.false_ne_true] at h1 h2
  cases hc3 : itemsAlertGreen e with
  | true => rw [hc3, if_pos rfl] at h2; exact okInj b h2
  | false =>
  rw [hc3] at h1 h2
  rw [if_neg Bool.false_ne_true] at h1 h2
  cases hc4 : rawGreenXml (pyStrEntry e) with
  | true => rw [hc4, if_pos rfl] at h2; exact okInj b h2
  | false =>
  rw [hc4] at h1 h2
  rw [if_neg Bool.false_ne_true] at h1 h2
  rw [greenAlertCheck_none] at h1
  cases hg5 : greenAlertCheck dd with
  | error er => rw [hg5] at h2; exact (errNotOk h2).elim
  | ok gb =>
  rw [hg5] at h2
  cases gb with
  | true => exact okInj b h2
  | false =>
  cases hc6 : containsS "green earthquake" t with
  | true => rw [hc6, if_pos rfl] at h2; exact okInj b h2
  | false =>
  rw [hc6] at h1 h2
  rw [if_neg Bool.false_ne_true] at h1 h2
  cases hic : iconGreenCheck e with
  | error er => rw [hic] at h1; exact (errNotOk h1).elim
  | ok ib =>
  rw [hic] at h1 h2
  cases ib with
  | true => exact okInj b h2
  | false => exact absurd (Except.ok.inj h1) Bool.false_ne_true

lemma usgs_mono (dd : Option EDict) (t s : String) (b : Bool)
    (h1 : usgsChecks Option.none t s = .ok true)
    (h2 : usgsChecks dd t s = .ok b) : b = true := by
  unfold usgsChecks at h1 h2
  cases hts : usgsSearch t with
  | some m =>
    rw [hts] at h1 h2
    have h1r : (if m < usgsThreshold then (Except.ok true : Except String Bool)
        else magCheckDetails Option.none usgsThreshold) = .ok true := h1
    have h2r : (if m < usgsThreshold then (Except.ok true : Except String Bool)
        else magCheckDetails dd usgsThreshold) = .ok b := h2
    by_cases hcmp : m < usgsThreshold
    · rw [if_pos hcmp] at h2r; exact okInj b h2r
    · rw [if_neg hcmp] at h1r
      exact absurd (Except.ok.inj h1r) Bool.false_ne_true
  | none =>
    rw [hts] at h1 h2
    cases hss : usgsSearch s with
    | some m =>
      rw [hss] at h1 h2
      have h1r : (if m < usgsThreshold then (Except.ok true : Except String Bool)
          else magCheckDetails Option.none usgsThreshold) = .ok true := h1
      have h2r : (if m < usgsThreshold then (Except.ok true : Except String Bool)
          else magCheckDetails dd usgsThreshold) = .ok b := h2
      by_cases hcmp : m < usgsThreshold
      · rw [if_pos hcmp] at h2r; exact okInj b h2r
      · rw [if_neg hcmp] at h1r
        exact absurd (Except.ok.inj h1r) Bool.false_ne_true
    | none =>
      rw [hss] at h1
      exact absurd (Except.ok.inj h1) Bool.false_ne_true

lemma filter_chain_mono (e : PyEntry) (dd : Option EDict) (st title summary link : String)
    (b : Bool)
    (h1 : filterChain e Option.none st title summary link = .ok true)
    (h2 : filterChain e dd st title summary link = .ok b) : b = true := by
  unfold filterChain at h1 h2
  cases hn1 : (st == "noaa_spc" && (containsS "/md/" link || startsS "spc md" title)) with
  | true => rw [hn1, if_pos rfl] at h2; exact okInj b h2
  | false =>
  rw [hn1] at h1 h2
  rw [if_neg Bool.false_ne_true] at h1 h2
  cases hn2 : (st == "noaa_spc" && (containsS "/outlook/" link || containsS "outlook" (lowerS title))) with
  | true => rw [hn2, if_pos rfl] at h2; exact okInj b h2
  | false =>
  rw [hn2] at h1 h2
  rw [if_neg Bool.false_ne_true] at h1 h2
  cases hg : (st == "gdacs") with
  | true =>
    rw [hg, if_pos rfl] at h1 h2
    exact gdacs_mono e dd title summary b h1 h2
  | false =>
  rw [hg] at h1 h2
  rw [if_neg Bool.false_ne_true] at h1 h2
  cases hu : (st == "usgs") with
  | true =>
    rw [hu, if_pos rfl] at h1 h2
    exact usgs_mono dd title summary b h1 h2
  | false =>
  rw [hu] at h1
  rw [if_neg Bool.false_ne_true] at h1
  exact absurd (Except.ok.inj h1) Bool.false_ne_true

/-- Claim C3 (counterexample): the claim quantifies over every details
value; for a details dict carrying a non-string `alert_level`, the
second call raises `AttributeError` in `entry_details.get("alert_level",
"").lower()` instead of returning true, so "returns true for every
details value" fails as stated. -/
theorem shouldFilter_details_exception_cex :
    shouldFilterEntry c3Entry Option.none = .ok true ∧
    shouldFilterEntry c3Entry (some c3Det) = .error "AttributeError" ∧
    ¬ shouldFilterEntry c3Entry (some c3Det) = .ok true := by decide

/-- Claim C3 (amended): `should_filter_entry` is deterministic, and
whenever the details-supplied call returns normally, a true verdict
obtained without details is never reversed — supplying details can only
keep the verdict true or raise, never flip it to false. -/
theorem shouldFilter_deterministic_and_monotone :
    (∀ (e : PyEntry) (dd : Option EDict), shouldFilterEntry e dd = shouldFilterEntry e dd) ∧
    (∀ (e : PyEntry) (dd : Option EDict) (b : Bool),
      shouldFilterEntry e Option.none = .ok true →
      shouldFilterEntry e dd = .ok b → b = true) := by
  refine ⟨fun e dd => rfl, fun e dd b h1 h2 => ?_⟩
  cases e with
  | pynone => exact okInj b h2
  | nondict r => exact absurd (Except.ok.inj h1) Bool.false_ne_true
  | dict d =>
    rw [shouldFilterEntry_dict] at h1 h2
    cases hf : entryFields (.dict d) with
    | error er => rw [hf] at h1; exact (errNotOk h1).elim
    | ok q =>
      obtain ⟨st, title, summary, link⟩ := q
      rw [hf] at h1 h2
      exact filter_chain_mono (.dict d) dd st title summary link b h1 h2

/-- Witness for C3: the amended theorem applied where both calls return
true. -/
theorem shouldFilter_monotone_witness :
    shouldFilterEntry c3WitEntry Option.none = .ok true ∧
    shouldFilterEntry c3WitEntry (some c3WitDet) = .ok true ∧ true = true :=
  ⟨by decide, by decide,
   shouldFilter_deterministic_and_monotone.2 c3WitEntry (some c3WitDet) true
     (by decide) (by decide)⟩

/-- Witness for C4: the amended theorem at concrete inputs. -/
theorem shouldFilter_none_true_nondict_false_witness :
    shouldFilterEntry PyEntry.pynone (some [("alert_level", FVal.str "red")]) = .ok true ∧
    shouldFilterEntry (.nondict "zzz") (some [("alert_level", FVal.str "red")]) = .ok false :=
  shouldFilter_none_true_nondict_false "zzz" (some [("alert_level", FVal.str "red")])
